import Mathlib

/-!
Verification of the configuration subsystem of the jnv JSON browser
(`src/config.rs`).  The Rust code is shallowly embedded: the style codec
(`content_style_serde`), the `Config` schema with its serde-generated
map deserializer (`deny_unknown_fields`, per-field decoding, field-level
defaults on the three duration fields), and the built-in `Default`
configuration are translated into executable Lean definitions, and the
specification's claims are settled against them.
-/

namespace Jnv

/-- Time interval with millisecond resolution, modelling `tokio::time::Duration`
as used by the config (all values are built with `Duration::from_millis`). -/
structure Duration where
  millis : Nat
deriving DecidableEq

def Duration.fromMillis (n : Nat) : Duration := ⟨n⟩

/-- `Duration::default()` is the zero interval. -/
def Duration.zero : Duration := ⟨0⟩

/-- Terminal colors, modelling `crossterm::style::Color`. -/
inductive Color where
  | reset | black | darkGrey | red | darkRed | green | darkGreen
  | yellow | darkYellow | blue | darkBlue | magenta | darkMagenta
  | cyan | darkCyan | white | grey
  | rgb (r g b : Nat)
  | ansiValue (n : Nat)
deriving DecidableEq

/-- Text decorations, modelling `crossterm::style::Attribute`
(declaration order of the Rust enum). -/
inductive Attribute where
  | reset | bold | dim | italic | underlined | doubleUnderlined
  | undercurled | underdotted | underdashed | slowBlink | rapidBlink
  | reverse | hidden | crossedOut | fraktur | noBold | normalIntensity
  | noItalic | noUnderline | noBlink | noReverse | noHidden
  | notCrossedOut | framed | encircled | overLined | notFramedOrEncircled
  | notOverLined
deriving DecidableEq, Fintype

/-- The fixed enumeration of every `Attribute` variant in declaration
order, modelling `Attribute::iterator()`. -/
def attributeOrder : List Attribute :=
  [.reset, .bold, .dim, .italic, .underlined, .doubleUnderlined,
   .undercurled, .underdotted, .underdashed, .slowBlink, .rapidBlink,
   .reverse, .hidden, .crossedOut, .fraktur, .noBold, .normalIntensity,
   .noItalic, .noUnderline, .noBlink, .noReverse, .noHidden,
   .notCrossedOut, .framed, .encircled, .overLined, .notFramedOrEncircled,
   .notOverLined]

/-- An attribute set, modelling the `crossterm::style::Attributes` bitset
(one bit per `Attribute` variant; `|` is union, `has` is membership,
`is_empty` tests for the all-zero bitset). -/
abbrev Attributes := Finset Attribute

/-- In-memory style, modelling `crossterm::style::ContentStyle`. -/
structure ContentStyle where
  foreground_color : Option Color
  background_color : Option Color
  underline_color : Option Color
  attributes : Attributes
deriving DecidableEq

/-- `ContentStyle::new()`: no colors, empty attribute set. -/
def ContentStyle.new : ContentStyle := ⟨none, none, none, ∅⟩

/-- The serializable style record, modelling `ContentStyleDef` in
`content_style_serde` (each field independently optional; a missing
`Option` field deserializes to `None` under serde). -/
structure ContentStyleDef where
  foreground : Option Color
  background : Option Color
  underline : Option Color
  attributes : Option (List Attribute)
deriving DecidableEq

/-- Folding an attribute list into a set, modelling
`attributes.into_iter().fold(Attributes::default(), |acc, x| acc | x)`. -/
def decodeAttrs (l : List Attribute) : Attributes :=
  l.foldl (fun acc x => insert x acc) ∅

/-- `content_style_serde::deserialize`, after `ContentStyleDef` itself has
been read: colors are copied verbatim onto `ContentStyle::new()`; the
attribute list, when present, is folded into the set. -/
def decodeStyle (d : ContentStyleDef) : ContentStyle :=
  { foreground_color := d.foreground
    background_color := d.background
    underline_color := d.underline
    attributes :=
      match d.attributes with
      | some l => decodeAttrs l
      | none => (∅ : Attributes) }

/-- `content_style_serde::serialize`: colors copied verbatim; the
attribute list is omitted when the set is empty, otherwise it is
`Attribute::iterator().filter(|x| style.attributes.has(*x))`. -/
def encodeStyle (s : ContentStyle) : ContentStyleDef :=
  { foreground := s.foreground_color
    background := s.background_color
    underline := s.underline_color
    attributes :=
      if s.attributes = ∅ then none
      else some (attributeOrder.filter (fun x => decide (x ∈ s.attributes))) }

/-- Key identifiers, modelling `crossterm::event::KeyCode`: either a
literal character or a named key tag. -/
inductive KeyCode where
  | char (c : Char)
  | left | right | up | down | tab | backspace | enter | esc
  | home | endKey | pageUp | pageDown | delete | insert
deriving DecidableEq

/-- A single modifier flag of `crossterm::event::KeyModifiers`. -/
inductive Modifier where
  | shift | control | alt | superKey | hyper | meta
deriving DecidableEq

/-- Modifier bitset, modelling `crossterm::event::KeyModifiers`. -/
abbrev KeyModifiers := Finset Modifier

def KeyModifiers.controlMod : KeyModifiers := {Modifier.control}

def KeyModifiers.altMod : KeyModifiers := {Modifier.alt}

def KeyModifiers.noneMod : KeyModifiers := ∅

/-- Modelling `crossterm::event::KeyEventKind`. -/
inductive KeyEventKind where
  | press | repeatKind | release
deriving DecidableEq

/-- A single flag of `crossterm::event::KeyEventState`. -/
inductive StateFlag where
  | keypad | capsLock | numLock
deriving DecidableEq

abbrev KeyEventState := Finset StateFlag

/-- Key chord, modelling `crossterm::event::KeyEvent` (structural
equality). -/
structure KeyEvent where
  code : KeyCode
  modifiers : KeyModifiers
  kind : KeyEventKind
  state : KeyEventState
deriving DecidableEq

/-- `KeyEvent::new(code, modifiers)`: kind `Press`, state `NONE`. -/
def KeyEvent.new (c : KeyCode) (m : KeyModifiers) : KeyEvent :=
  ⟨c, m, .press, ∅⟩

/-- Modelled from the spec: the document form of a key chord, a nested
record `{key: <key-identifier>, modifiers: <modifier-set-or-name>}` (the
chord deserializer itself lives in the crossterm dependency, outside this
repository's sources). -/
structure KeyChordDoc where
  key : KeyCode
  modifiers : KeyModifiers
deriving DecidableEq

/-- Modelled from the spec: decoding a chord record yields the key event
with the given key and modifiers (kind and state take their defaults,
`Press` and `NONE`, exactly as `KeyEvent::new` sets them). -/
def decodeKeyChord (d : KeyChordDoc) : KeyEvent :=
  ⟨d.key, d.modifiers, .press, ∅⟩

/-- A top-level document value: integers, strings, nested style records,
nested chord records, or character lists (the shapes the `Config` schema
consumes). -/
inductive Value where
  | int (n : Int)
  | str (s : String)
  | styleRec (r : ContentStyleDef)
  | keyRec (k : KeyChordDoc)
  | chars (cs : List Char)
deriving DecidableEq

/-- `DurationMilliSeconds<u64>` decoding: a non-negative integer counting
milliseconds becomes an interval of that many milliseconds; a negative
value fails to deserialize as `u64`. -/
def decodeDurationVal : Value → Option Duration
  | .int n => if 0 ≤ n then some (Duration.fromMillis n.toNat) else none
  | _ => none

/-- `usize` decoding: a non-negative integer. -/
def decodeNatVal : Value → Option Nat
  | .int n => if 0 ≤ n then some n.toNat else none
  | _ => none

def decodeStrVal : Value → Option String
  | .str s => some s
  | _ => none

/-- A style-typed field decodes through the style codec. -/
def decodeStyleVal : Value → Option ContentStyle
  | .styleRec r => some (decodeStyle r)
  | _ => none

/-- A chord-typed field decodes through the chord record. -/
def decodeChordVal : Value → Option KeyEvent
  | .keyRec k => some (decodeKeyChord k)
  | _ => none

/-- `HashSet<char>` decoding: a list of characters collected into a set. -/
def decodeCharsVal : Value → Option (Finset Char)
  | .chars cs => some cs.toFinset
  | _ => none

/-- The runtime configuration, modelling the `Config` struct (fields in
declaration order). -/
structure Config where
  query_debounce_duration : Duration
  resize_debounce_duration : Duration
  search_result_chunk_size : Nat
  search_load_chunk_size : Nat
  active_item_style : ContentStyle
  inactive_item_style : ContentStyle
  prefix_style : ContentStyle
  active_char_style : ContentStyle
  inactive_char_style : ContentStyle
  focus_prefix : String
  focus_prefix_style : ContentStyle
  focus_active_char_style : ContentStyle
  focus_inactive_char_style : ContentStyle
  defocus_prefix : String
  defocus_prefix_style : ContentStyle
  defocus_active_char_style : ContentStyle
  defocus_inactive_char_style : ContentStyle
  curly_brackets_style : ContentStyle
  square_brackets_style : ContentStyle
  key_style : ContentStyle
  string_value_style : ContentStyle
  number_value_style : ContentStyle
  boolean_value_style : ContentStyle
  null_value_style : ContentStyle
  word_break_chars : Finset Char
  spin_duration : Duration
  move_to_tail : KeyEvent
  move_to_head : KeyEvent
  backward : KeyEvent
  forward : KeyEvent
  completion : KeyEvent
  move_to_next_nearest : KeyEvent
  move_to_previous_nearest : KeyEvent
  erase : KeyEvent
  erase_all : KeyEvent
  erase_to_previous_nearest : KeyEvent
  erase_to_next_nearest : KeyEvent
  search_up : KeyEvent
deriving DecidableEq

/-- The built-in default configuration, transcribing `impl Default for
Config` (the `StyleBuilder` chains are expanded to the styles they
build). -/
def defaultConfig : Config where
  query_debounce_duration := Duration.fromMillis 600
  resize_debounce_duration := Duration.fromMillis 200
  search_result_chunk_size := 100
  search_load_chunk_size := 50000
  active_item_style := ⟨some .grey, some .yellow, none, ∅⟩
  inactive_item_style := ⟨some .grey, none, none, ∅⟩
  prefix_style := ⟨some .blue, none, none, ∅⟩
  active_char_style := ⟨none, some .magenta, none, ∅⟩
  inactive_char_style := ContentStyle.new
  focus_prefix := "❯❯ "
  focus_prefix_style := ⟨some .blue, none, none, ∅⟩
  focus_active_char_style := ⟨none, some .magenta, none, ∅⟩
  focus_inactive_char_style := ContentStyle.new
  defocus_prefix := "▼"
  defocus_prefix_style := ⟨some .blue, none, none, {Attribute.dim}⟩
  defocus_active_char_style := ⟨none, none, none, {Attribute.dim}⟩
  defocus_inactive_char_style := ⟨none, none, none, {Attribute.dim}⟩
  curly_brackets_style := ⟨none, none, none, {Attribute.bold}⟩
  square_brackets_style := ⟨none, none, none, {Attribute.bold}⟩
  key_style := ⟨some .cyan, none, none, ∅⟩
  string_value_style := ⟨some .green, none, none, ∅⟩
  number_value_style := ContentStyle.new
  boolean_value_style := ContentStyle.new
  null_value_style := ⟨some .grey, none, none, ∅⟩
  word_break_chars := {'.', '|', '(', ')', '[', ']'}
  spin_duration := Duration.fromMillis 300
  move_to_tail := KeyEvent.new (.char 'e') KeyModifiers.controlMod
  move_to_head := KeyEvent.new (.char 'a') KeyModifiers.controlMod
  backward := KeyEvent.new .left KeyModifiers.noneMod
  forward := KeyEvent.new .right KeyModifiers.noneMod
  completion := KeyEvent.new .tab KeyModifiers.noneMod
  move_to_next_nearest := KeyEvent.new (.char 'f') KeyModifiers.altMod
  move_to_previous_nearest := KeyEvent.new (.char 'b') KeyModifiers.altMod
  erase := KeyEvent.new .backspace KeyModifiers.noneMod
  erase_all := KeyEvent.new (.char 'u') KeyModifiers.controlMod
  erase_to_previous_nearest := KeyEvent.new (.char 'w') KeyModifiers.controlMod
  erase_to_next_nearest := KeyEvent.new (.char 'd') KeyModifiers.controlMod
  search_up := KeyEvent.new .up KeyModifiers.noneMod

instance {ε α : Type} [DecidableEq ε] [DecidableEq α] : DecidableEq (Except ε α) :=
  fun x y =>
  match x, y with
  | .error e, .error e' =>
    if h : e = e' then isTrue (by rw [h])
    else isFalse (fun hh => h (Except.error.inj hh))
  | .error _, .ok _ => isFalse (fun hh => Except.noConfusion hh)
  | .ok _, .error _ => isFalse (fun hh => Except.noConfusion hh)
  | .ok a, .ok a' =>
    if h : a = a' then isTrue (by rw [h])
    else isFalse (fun hh => h (Except.ok.inj hh))

/-- Structured parse errors surfaced by the deserializer. -/
inductive ConfigError where
  | unknownField (name : String)
  | duplicateField (name : String)
  | missingField (name : String)
  | invalidValue (name : String)
deriving DecidableEq

/-- The partially-filled state of the serde map visitor: one `Option` per
`Config` field, all starting at `None`. -/
structure ConfigDraft where
  query_debounce_duration : Option Duration := none
  resize_debounce_duration : Option Duration := none
  search_result_chunk_size : Option Nat := none
  search_load_chunk_size : Option Nat := none
  active_item_style : Option ContentStyle := none
  inactive_item_style : Option ContentStyle := none
  prefix_style : Option ContentStyle := none
  active_char_style : Option ContentStyle := none
  inactive_char_style : Option ContentStyle := none
  focus_prefix : Option String := none
  focus_prefix_style : Option ContentStyle := none
  focus_active_char_style : Option ContentStyle := none
  focus_inactive_char_style : Option ContentStyle := none
  defocus_prefix : Option String := none
  defocus_prefix_style : Option ContentStyle := none
  defocus_active_char_style : Option ContentStyle := none
  defocus_inactive_char_style : Option ContentStyle := none
  curly_brackets_style : Option ContentStyle := none
  square_brackets_style : Option ContentStyle := none
  key_style : Option ContentStyle := none
  string_value_style : Option ContentStyle := none
  number_value_style : Option ContentStyle := none
  boolean_value_style : Option ContentStyle := none
  null_value_style : Option ContentStyle := none
  word_break_chars : Option (Finset Char) := none
  spin_duration : Option Duration := none
  move_to_tail : Option KeyEvent := none
  move_to_head : Option KeyEvent := none
  backward : Option KeyEvent := none
  forward : Option KeyEvent := none
  completion : Option KeyEvent := none
  move_to_next_nearest : Option KeyEvent := none
  move_to_previous_nearest : Option KeyEvent := none
  erase : Option KeyEvent := none
  erase_all : Option KeyEvent := none
  erase_to_previous_nearest : Option KeyEvent := none
  erase_to_next_nearest : Option KeyEvent := none
  search_up : Option KeyEvent := none

def ConfigDraft.empty : ConfigDraft := {}

/-- One step of the serde map visitor for a recognized field: a duplicate
occurrence is an error, then the value is decoded with the field's codec
and stored. -/
def fieldStep {α : Type} (g : ConfigDraft → Option α)
    (s : ConfigDraft → α → ConfigDraft) (d : Value → Option α) (n : String)
    (pc : ConfigDraft) (v : Value) : Except ConfigError ConfigDraft :=
  match g pc, d v with
  | some _, _ => .error (.duplicateField n)
  | none, none => .error (.invalidValue n)
  | none, some a => .ok (s pc a)

/-- The recognized top-level fields, in `Config` declaration order, each
with its visitor step (document names carry the serde renames
`*_duration_ms`). -/
def fieldHandlers :
    List (String × (ConfigDraft → Value → Except ConfigError ConfigDraft)) :=
  [("query_debounce_duration_ms",
    fieldStep (fun pc => pc.query_debounce_duration)
      (fun pc a => { pc with query_debounce_duration := some a })
      decodeDurationVal "query_debounce_duration_ms"),
   ("resize_debounce_duration_ms",
    fieldStep (fun pc => pc.resize_debounce_duration)
      (fun pc a => { pc with resize_debounce_duration := some a })
      decodeDurationVal "resize_debounce_duration_ms"),
   ("search_result_chunk_size",
    fieldStep (fun pc => pc.search_result_chunk_size)
      (fun pc a => { pc with search_result_chunk_size := some a })
      decodeNatVal "search_result_chunk_size"),
   ("search_load_chunk_size",
    fieldStep (fun pc => pc.search_load_chunk_size)
      (fun pc a => { pc with search_load_chunk_size := some a })
      decodeNatVal "search_load_chunk_size"),
   ("active_item_style",
    fieldStep (fun pc => pc.active_item_style)
      (fun pc a => { pc with active_item_style := some a })
      decodeStyleVal "active_item_style"),
   ("inactive_item_style",
    fieldStep (fun pc => pc.inactive_item_style)
      (fun pc a => { pc with inactive_item_style := some a })
      decodeStyleVal "inactive_item_style"),
   ("prefix_style",
    fieldStep (fun pc => pc.prefix_style)
      (fun pc a => { pc with prefix_style := some a })
      decodeStyleVal "prefix_style"),
   ("active_char_style",
    fieldStep (fun pc => pc.active_char_style)
      (fun pc a => { pc with active_char_style := some a })
      decodeStyleVal "active_char_style"),
   ("inactive_char_style",
    fieldStep (fun pc => pc.inactive_char_style)
      (fun pc a => { pc with inactive_char_style := some a })
      decodeStyleVal "inactive_char_style"),
   ("focus_prefix",
    fieldStep (fun pc => ConfigDraft.focus_prefix pc)
      (fun pc a => { pc with focus_prefix := some a })
      decodeStrVal "focus_prefix"),
   ("focus_prefix_style",
    fieldStep (fun pc => pc.focus_prefix_style)
      (fun pc a => { pc with focus_prefix_style := some a })
      decodeStyleVal "focus_prefix_style"),
   ("focus_active_char_style",
    fieldStep (fun pc => pc.focus_active_char_style)
      (fun pc a => { pc with focus_active_char_style := some a })
      decodeStyleVal "focus_active_char_style"),
   ("focus_inactive_char_style",
    fieldStep (fun pc => pc.focus_inactive_char_style)
      (fun pc a => { pc with focus_inactive_char_style := some a })
      decodeStyleVal "focus_inactive_char_style"),
   ("defocus_prefix",
    fieldStep (fun pc => ConfigDraft.defocus_prefix pc)
      (fun pc a => { pc with defocus_prefix := some a })
      decodeStrVal "defocus_prefix"),
   ("defocus_prefix_style",
    fieldStep (fun pc => pc.defocus_prefix_style)
      (fun pc a => { pc with defocus_prefix_style := some a })
      decodeStyleVal "defocus_prefix_style"),
   ("defocus_active_char_style",
    fieldStep (fun pc => pc.defocus_active_char_style)
      (fun pc a => { pc with defocus_active_char_style := some a })
      decodeStyleVal "defocus_active_char_style"),
   ("defocus_inactive_char_style",
    fieldStep (fun pc => pc.defocus_inactive_char_style)
      (fun pc a => { pc with defocus_inactive_char_style := some a })
      decodeStyleVal "defocus_inactive_char_style"),
   ("curly_brackets_style",
    fieldStep (fun pc => pc.curly_brackets_style)
      (fun pc a => { pc with curly_brackets_style := some a })
      decodeStyleVal "curly_brackets_style"),
   ("square_brackets_style",
    fieldStep (fun pc => pc.square_brackets_style)
      (fun pc a => { pc with square_brackets_style := some a })
      decodeStyleVal "square_brackets_style"),
   ("key_style",
    fieldStep (fun pc => pc.key_style)
      (fun pc a => { pc with key_style := some a })
      decodeStyleVal "key_style"),
   ("string_value_style",
    fieldStep (fun pc => pc.string_value_style)
      (fun pc a => { pc with string_value_style := some a })
      decodeStyleVal "string_value_style"),
   ("number_value_style",
    fieldStep (fun pc => pc.number_value_style)
      (fun pc a => { pc with number_value_style := some a })
      decodeStyleVal "number_value_style"),
   ("boolean_value_style",
    fieldStep (fun pc => pc.boolean_value_style)
      (fun pc a => { pc with boolean_value_style := some a })
      decodeStyleVal "boolean_value_style"),
   ("null_value_style",
    fieldStep (fun pc => pc.null_value_style)
      (fun pc a => { pc with null_value_style := some a })
      decodeStyleVal "null_value_style"),
   ("word_break_chars",
    fieldStep (fun pc => pc.word_break_chars)
      (fun pc a => { pc with word_break_chars := some a })
      decodeCharsVal "word_break_chars"),
   ("spin_duration_ms",
    fieldStep (fun pc => pc.spin_duration)
      (fun pc a => { pc with spin_duration := some a })
      decodeDurationVal "spin_duration_ms"),
   ("move_to_tail",
    fieldStep (fun pc => pc.move_to_tail)
      (fun pc a => { pc with move_to_tail := some a })
      decodeChordVal "move_to_tail"),
   ("move_to_head",
    fieldStep (fun pc => pc.move_to_head)
      (fun pc a => { pc with move_to_head := some a })
      decodeChordVal "move_to_head"),
   ("backward",
    fieldStep (fun pc => pc.backward)
      (fun pc a => { pc with backward := some a })
      decodeChordVal "backward"),
   ("forward",
    fieldStep (fun pc => pc.forward)
      (fun pc a => { pc with forward := some a })
      decodeChordVal "forward"),
   ("completion",
    fieldStep (fun pc => pc.completion)
      (fun pc a => { pc with completion := some a })
      decodeChordVal "completion"),
   ("move_to_next_nearest",
    fieldStep (fun pc => pc.move_to_next_nearest)
      (fun pc a => { pc with move_to_next_nearest := some a })
      decodeChordVal "move_to_next_nearest"),
   ("move_to_previous_nearest",
    fieldStep (fun pc => pc.move_to_previous_nearest)
      (fun pc a => { pc with move_to_previous_nearest := some a })
      decodeChordVal "move_to_previous_nearest"),
   ("erase",
    fieldStep (fun pc => pc.erase)
      (fun pc a => { pc with erase := some a })
      decodeChordVal "erase"),
   ("erase_all",
    fieldStep (fun pc => pc.erase_all)
      (fun pc a => { pc with erase_all := some a })
      decodeChordVal "erase_all"),
   ("erase_to_previous_nearest",
    fieldStep (fun pc => pc.erase_to_previous_nearest)
      (fun pc a => { pc with erase_to_previous_nearest := some a })
      decodeChordVal "erase_to_previous_nearest"),
   ("erase_to_next_nearest",
    fieldStep (fun pc => pc.erase_to_next_nearest)
      (fun pc a => { pc with erase_to_next_nearest := some a })
      decodeChordVal "erase_to_next_nearest"),
   ("search_up",
    fieldStep (fun pc => pc.search_up)
      (fun pc a => { pc with search_up := some a })
      decodeChordVal "search_up")]

/-- The closed schema: exactly the recognized top-level field names. -/
def knownFieldNames : List String := fieldHandlers.map Prod.fst

/-- Processing one map entry: an unrecognized key is a hard error
(`deny_unknown_fields`); a recognized one runs its field step. -/
def parseField (pc : ConfigDraft) (kv : String × Value) :
    Except ConfigError ConfigDraft :=
  match List.find? (fun h => h.1 == kv.1) fieldHandlers with
  | none => .error (.unknownField kv.1)
  | some h => h.2 pc kv.2

/-- The visitor loop over the document's entries, in document order. -/
def parseFields (pc : ConfigDraft) : List (String × Value) →
    Except ConfigError ConfigDraft
  | [] => .ok pc
  | kv :: rest =>
    match parseField pc kv with
    | .error e => .error e
    | .ok pc₂ => parseFields pc₂ rest

/-- The fields that must be present in every document — every field except
the three durations, which carry a field-level `#[serde(default)]` — in
declaration order, each with its presence test. -/
def requiredFields : List (String × (ConfigDraft → Bool)) :=
  [("search_result_chunk_size", fun pc => pc.search_result_chunk_size.isSome),
   ("search_load_chunk_size", fun pc => pc.search_load_chunk_size.isSome),
   ("active_item_style", fun pc => pc.active_item_style.isSome),
   ("inactive_item_style", fun pc => pc.inactive_item_style.isSome),
   ("prefix_style", fun pc => pc.prefix_style.isSome),
   ("active_char_style", fun pc => pc.active_char_style.isSome),
   ("inactive_char_style", fun pc => pc.inactive_char_style.isSome),
   ("focus_prefix", fun pc => ( ConfigDraft.focus_prefix pc).isSome),
   ("focus_prefix_style", fun pc => pc.focus_prefix_style.isSome),
   ("focus_active_char_style", fun pc => pc.focus_active_char_style.isSome),
   ("focus_inactive_char_style", fun pc => pc.focus_inactive_char_style.isSome),
   ("defocus_prefix", fun pc => ( ConfigDraft.defocus_prefix pc).isSome),
   ("defocus_prefix_style", fun pc => pc.defocus_prefix_style.isSome),
   ("defocus_active_char_style", fun pc => pc.defocus_active_char_style.isSome),
   ("defocus_inactive_char_style", fun pc => pc.defocus_inactive_char_style.isSome),
   ("curly_brackets_style", fun pc => pc.curly_brackets_style.isSome),
   ("square_brackets_style", fun pc => pc.square_brackets_style.isSome),
   ("key_style", fun pc => pc.key_style.isSome),
   ("string_value_style", fun pc => pc.string_value_style.isSome),
   ("number_value_style", fun pc => pc.number_value_style.isSome),
   ("boolean_value_style", fun pc => pc.boolean_value_style.isSome),
   ("null_value_style", fun pc => pc.null_value_style.isSome),
   ("word_break_chars", fun pc => pc.word_break_chars.isSome),
   ("move_to_tail", fun pc => pc.move_to_tail.isSome),
   ("move_to_head", fun pc => pc.move_to_head.isSome),
   ("backward", fun pc => pc.backward.isSome),
   ("forward", fun pc => pc.forward.isSome),
   ("completion", fun pc => pc.completion.isSome),
   ("move_to_next_nearest", fun pc => pc.move_to_next_nearest.isSome),
   ("move_to_previous_nearest", fun pc => pc.move_to_previous_nearest.isSome),
   ("erase", fun pc => pc.erase.isSome),
   ("erase_all", fun pc => pc.erase_all.isSome),
   ("erase_to_previous_nearest", fun pc => pc.erase_to_previous_nearest.isSome),
   ("erase_to_next_nearest", fun pc => pc.erase_to_next_nearest.isSome),
   ("search_up", fun pc => pc.search_up.isSome)]

/-- Fallback for a style slot in `build` (in reach only for the three
defaulted duration fields; kept as named helpers so the generated code
stays small). -/
def styleD (o : Option ContentStyle) : ContentStyle :=
  o.getD ContentStyle.new

def keyD (o : Option KeyEvent) : KeyEvent :=
  o.getD (KeyEvent.new (.char ' ') ∅)

/-- Assembling the final `Config` from a completed draft.  The three
duration fields take `Duration::default()` (zero) when absent, per their
field-level `#[serde(default)]`; every other fallback is unreachable
because `finish` only calls `build` after checking that all required
fields are present. -/
def build (pc : ConfigDraft) : Config where
  query_debounce_duration := pc.query_debounce_duration.getD Duration.zero
  resize_debounce_duration := pc.resize_debounce_duration.getD Duration.zero
  search_result_chunk_size := pc.search_result_chunk_size.getD 0
  search_load_chunk_size := pc.search_load_chunk_size.getD 0
  active_item_style := styleD pc.active_item_style
  inactive_item_style := styleD pc.inactive_item_style
  prefix_style := styleD pc.prefix_style
  active_char_style := styleD pc.active_char_style
  inactive_char_style := styleD pc.inactive_char_style
  focus_prefix := ( ConfigDraft.focus_prefix pc).getD ""
  focus_prefix_style := styleD pc.focus_prefix_style
  focus_active_char_style := styleD pc.focus_active_char_style
  focus_inactive_char_style := styleD pc.focus_inactive_char_style
  defocus_prefix := ( ConfigDraft.defocus_prefix pc).getD ""
  defocus_prefix_style := styleD pc.defocus_prefix_style
  defocus_active_char_style := styleD pc.defocus_active_char_style
  defocus_inactive_char_style := styleD pc.defocus_inactive_char_style
  curly_brackets_style := styleD pc.curly_brackets_style
  square_brackets_style := styleD pc.square_brackets_style
  key_style := styleD pc.key_style
  string_value_style := styleD pc.string_value_style
  number_value_style := styleD pc.number_value_style
  boolean_value_style := styleD pc.boolean_value_style
  null_value_style := styleD pc.null_value_style
  word_break_chars := pc.word_break_chars.getD ∅
  spin_duration := pc.spin_duration.getD Duration.zero
  move_to_tail := keyD pc.move_to_tail
  move_to_head := keyD pc.move_to_head
  backward := keyD pc.backward
  forward := keyD pc.forward
  completion := keyD pc.completion
  move_to_next_nearest := keyD pc.move_to_next_nearest
  move_to_previous_nearest := keyD pc.move_to_previous_nearest
  erase := keyD pc.erase
  erase_all := keyD pc.erase_all
  erase_to_previous_nearest := keyD pc.erase_to_previous_nearest
  erase_to_next_nearest := keyD pc.erase_to_next_nearest
  search_up := keyD pc.search_up

/-- End of the visitor: the first required field still absent (in
declaration order) is a missing-field error; otherwise the draft is
assembled. -/
def finish (pc : ConfigDraft) : Except ConfigError Config :=
  match requiredFields.find? (fun r => ! r.2 pc) with
  | some r => .error (.missingField r.1)
  | none => .ok (build pc)

/-- Deserializing a whole document: run the visitor loop over the entries
in document order, then the missing-field check. -/
def parseConfig (doc : List (String × Value)) : Except ConfigError Config :=
  match parseFields ConfigDraft.empty doc with
  | .error e => .error e
  | .ok pc => finish pc

/-- A document supplying every required field exactly once (the three
defaulted duration fields deliberately absent); `active_item_style` sets
only its foreground, to green. -/
def docAllRequired : List (String × Value) :=
  [("search_result_chunk_size", Value.int 10),
   ("search_load_chunk_size", Value.int 5),
   ("active_item_style", Value.styleRec ⟨some .green, none, none, none⟩),
   ("inactive_item_style", Value.styleRec ⟨none, none, none, none⟩),
   ("prefix_style", Value.styleRec ⟨none, none, none, none⟩),
   ("active_char_style", Value.styleRec ⟨none, none, none, none⟩),
   ("inactive_char_style", Value.styleRec ⟨none, none, none, none⟩),
   ("focus_prefix", Value.str "> "),
   ("focus_prefix_style", Value.styleRec ⟨none, none, none, none⟩),
   ("focus_active_char_style", Value.styleRec ⟨none, none, none, none⟩),
   ("focus_inactive_char_style", Value.styleRec ⟨none, none, none, none⟩),
   ("defocus_prefix", Value.str "v"),
   ("defocus_prefix_style", Value.styleRec ⟨none, none, none, none⟩),
   ("defocus_active_char_style", Value.styleRec ⟨none, none, none, none⟩),
   ("defocus_inactive_char_style", Value.styleRec ⟨none, none, none, none⟩),
   ("curly_brackets_style", Value.styleRec ⟨none, none, none, none⟩),
   ("square_brackets_style", Value.styleRec ⟨none, none, none, none⟩),
   ("key_style", Value.styleRec ⟨none, none, none, none⟩),
   ("string_value_style", Value.styleRec ⟨none, none, none, none⟩),
   ("number_value_style", Value.styleRec ⟨none, none, none, none⟩),
   ("boolean_value_style", Value.styleRec ⟨none, none, none, none⟩),
   ("null_value_style", Value.styleRec ⟨none, none, none, none⟩),
   ("word_break_chars", Value.chars ['.']),
   ("move_to_tail", Value.keyRec ⟨.char '$', KeyModifiers.controlMod⟩),
   ("move_to_head", Value.keyRec ⟨.char 'a', KeyModifiers.controlMod⟩),
   ("backward", Value.keyRec ⟨.left, ∅⟩),
   ("forward", Value.keyRec ⟨.right, ∅⟩),
   ("completion", Value.keyRec ⟨.tab, ∅⟩),
   ("move_to_next_nearest", Value.keyRec ⟨.char 'f', KeyModifiers.altMod⟩),
   ("move_to_previous_nearest", Value.keyRec ⟨.char 'b', KeyModifiers.altMod⟩),
   ("erase", Value.keyRec ⟨.backspace, ∅⟩),
   ("erase_all", Value.keyRec ⟨.char 'u', KeyModifiers.controlMod⟩),
   ("erase_to_previous_nearest", Value.keyRec ⟨.char 'w', KeyModifiers.controlMod⟩),
   ("erase_to_next_nearest", Value.keyRec ⟨.char 'd', KeyModifiers.controlMod⟩),
   ("search_up", Value.keyRec ⟨.up, ∅⟩)]

/-- The draft state the visitor reaches on `docAllRequired`. -/
def draftAllRequired : ConfigDraft :=
  { search_result_chunk_size := some 10
    search_load_chunk_size := some 5
    active_item_style := some ⟨some .green, none, none, ∅⟩
    inactive_item_style := some ContentStyle.new
    prefix_style := some ContentStyle.new
    active_char_style := some ContentStyle.new
    inactive_char_style := some ContentStyle.new
    focus_prefix := some "> "
    focus_prefix_style := some ContentStyle.new
    focus_active_char_style := some ContentStyle.new
    focus_inactive_char_style := some ContentStyle.new
    defocus_prefix := some "v"
    defocus_prefix_style := some ContentStyle.new
    defocus_active_char_style := some ContentStyle.new
    defocus_inactive_char_style := some ContentStyle.new
    curly_brackets_style := some ContentStyle.new
    square_brackets_style := some ContentStyle.new
    key_style := some ContentStyle.new
    string_value_style := some ContentStyle.new
    number_value_style := some ContentStyle.new
    boolean_value_style := some ContentStyle.new
    null_value_style := some ContentStyle.new
    word_break_chars := some {'.'}
    move_to_tail := some (KeyEvent.new (.char '$') KeyModifiers.controlMod)
    move_to_head := some (KeyEvent.new (.char 'a') KeyModifiers.controlMod)
    backward := some (KeyEvent.new .left ∅)
    forward := some (KeyEvent.new .right ∅)
    completion := some (KeyEvent.new .tab ∅)
    move_to_next_nearest := some (KeyEvent.new (.char 'f') KeyModifiers.altMod)
    move_to_previous_nearest := some (KeyEvent.new (.char 'b') KeyModifiers.altMod)
    erase := some (KeyEvent.new .backspace ∅)
    erase_all := some (KeyEvent.new (.char 'u') KeyModifiers.controlMod)
    erase_to_previous_nearest := some (KeyEvent.new (.char 'w') KeyModifiers.controlMod)
    erase_to_next_nearest := some (KeyEvent.new (.char 'd') KeyModifiers.controlMod)
    search_up := some (KeyEvent.new .up ∅) }

theorem mem_foldl_insert (l : List Attribute) (acc : Attributes) (a : Attribute) :
    a ∈ l.foldl (fun acc x => insert x acc) acc ↔ a ∈ acc ∨ a ∈ l := by
  induction l generalizing acc with
  | nil => simp
  | cons x xs ih =>
    rw [List.foldl_cons, ih]
    simp only [Finset.mem_insert, List.mem_cons]
    tauto

theorem mem_decodeAttrs (l : List Attribute) (a : Attribute) :
    a ∈ decodeAttrs l ↔ a ∈ l := by
  rw [decodeAttrs, mem_foldl_insert]
  simp

theorem mem_attributeOrder (a : Attribute) : a ∈ attributeOrder := by
  cases a <;> decide

theorem attributeOrder_nodup : attributeOrder.Nodup := by decide

/-- C2: for every Style value, decoding the record produced by encoding it
yields the original Style; the attribute set round-trips through the
canonical-order list regardless of how it was built. -/
theorem style_roundtrip (s : ContentStyle) : decodeStyle (encodeStyle s) = s := by
  obtain ⟨f, b, u, ats⟩ := s
  by_cases h : ats = ∅
  · simp [encodeStyle, decodeStyle, h]
  · simp only [encodeStyle, decodeStyle, if_neg h]
    congr 1
    refine Finset.ext fun a => ?_
    rw [mem_decodeAttrs]
    simp [List.mem_filter, mem_attributeOrder]

/-- C4 counterexample: decoding a record whose `attributes` field is
present but an empty list does not fail; it succeeds and yields the empty
style (`deserialize` folds the empty list into the empty set without any
error path at the record level). -/
theorem empty_attrs_decode_succeeds_counterexample :
    decodeStyle ⟨none, none, none, some []⟩ = ContentStyle.new ∧
    ContentStyle.new.attributes = ∅ :=
  ⟨rfl, rfl⟩

/-- C4 amended: decoding a record whose `attributes` field is present but
empty succeeds, silently normalizing to the same Style as a record with
the field absent — the attribute set comes out empty. -/
theorem empty_attrs_decode_normalizes (f b u : Option Color) :
    decodeStyle ⟨f, b, u, some []⟩ = decodeStyle ⟨f, b, u, none⟩ ∧
    (decodeStyle ⟨f, b, u, some []⟩).attributes = ∅ :=
  ⟨rfl, rfl⟩

/-- C5: serializing a Style omits the `attributes` field exactly when the
attribute set is empty; a non-empty set is emitted as the filter of the
fixed canonical `Attribute::iterator()` order, hence duplicate-free,
containing exactly the members of the set, and identical for equal
Styles. -/
theorem encode_canonical (s : ContentStyle) :
    ((encodeStyle s).attributes = none ↔ s.attributes = ∅) ∧
    (∀ l, (encodeStyle s).attributes = some l →
      l = attributeOrder.filter (fun x => decide (x ∈ s.attributes)) ∧
      l.Nodup ∧
      ∀ a, a ∈ l ↔ a ∈ s.attributes) ∧
    (∀ t, s = t → encodeStyle s = encodeStyle t) := by
  refine ⟨?_, ?_, fun t h => by rw [h]⟩
  · simp only [encodeStyle]
    split
    case isTrue h => simpa using h
    case isFalse h => simpa using h
  · intro l hl
    simp only [encodeStyle] at hl
    split at hl
    case isTrue h => cases hl
    case isFalse h =>
      have hl' := (Option.some.inj hl).symm
      subst hl'
      refine ⟨rfl, attributeOrder_nodup.filter _, fun a => ?_⟩
      simp [List.mem_filter, mem_attributeOrder]

/-- C5 witness: on the Style whose attribute set is built from bold and
underlined, the encoder emits exactly the list `[bold, underlined]` in
canonical order. -/
theorem encode_canonical_witness :
    (encodeStyle ⟨none, none, none,
        ({Attribute.bold, Attribute.underlined} : Attributes)⟩).attributes =
      some [Attribute.bold, Attribute.underlined] ∧
    [Attribute.bold, Attribute.underlined] =
      attributeOrder.filter
        (fun x => decide (x ∈ ({Attribute.bold, Attribute.underlined} : Attributes))) := by
  refine ⟨by decide, ?_⟩
  exact ((encode_canonical ⟨none, none, none, {Attribute.bold, Attribute.underlined}⟩).2.1
    [Attribute.bold, Attribute.underlined] (by decide)).1

/-- C8: folding an attribute list into a set yields exactly the named
attributes, and any two lists with the same members — in particular any
reordering or duplication of one another — decode to the same set. -/
theorem attrs_decode_set_semantics (l₁ l₂ : List Attribute)
    (h : ∀ a, a ∈ l₁ ↔ a ∈ l₂) :
    decodeAttrs l₁ = decodeAttrs l₂ ∧ (∀ a, a ∈ decodeAttrs l₁ ↔ a ∈ l₁) := by
  constructor
  · refine Finset.ext fun a => ?_
    rw [mem_decodeAttrs, mem_decodeAttrs, h a]
  · exact fun a => mem_decodeAttrs l₁ a

/-- C8 witness: the list `[Bold, Underlined]` and its reordered,
duplicated variant `[Underlined, Bold, Bold]` decode to the same
attribute set, which contains bold. -/
theorem attrs_decode_set_semantics_witness :
    decodeAttrs [Attribute.bold, Attribute.underlined] =
      decodeAttrs [Attribute.underlined, Attribute.bold, Attribute.bold] ∧
    Attribute.bold ∈ decodeAttrs [Attribute.bold, Attribute.underlined] := by
  have h := attrs_decode_set_semantics [Attribute.bold, Attribute.underlined]
    [Attribute.underlined, Attribute.bold, Attribute.bold] (by decide)
  exact ⟨h.1, (h.2 Attribute.bold).mpr (by decide)⟩

theorem fieldStep_ok {α : Type} {g : ConfigDraft → Option α}
    {s : ConfigDraft → α → ConfigDraft} {d : Value → Option α} {n : String}
    {pc : ConfigDraft} {v : Value} {pc₂ : ConfigDraft}
    (h : fieldStep g s d n pc v = .ok pc₂) :
    g pc = none ∧ ∃ a, d v = some a ∧ pc₂ = s pc a := by
  cases hg : g pc with
  | some x =>
    simp only [fieldStep, hg] at h
    exact Except.noConfusion h
  | none =>
    cases hd : d v with
    | none =>
      simp only [fieldStep, hg, hd] at h
      exact Except.noConfusion h
    | some a =>
      simp only [fieldStep, hg, hd, Except.ok.injEq] at h
      exact ⟨rfl, a, rfl, h.symm⟩

theorem parseField_unknown {pc : ConfigDraft} {k : String} {v : Value}
    (hk : ¬ k ∈ knownFieldNames) :
    parseField pc (k, v) = .error (.unknownField k) := by
  have hfind : List.find? (fun h => h.1 == k) fieldHandlers = none := by
    rw [List.find?_eq_none]
    intro x hx
    simp only [beq_iff_eq]
    intro hxk
    exact hk (hxk ▸ List.mem_map_of_mem Prod.fst hx)
  simp only [parseField, hfind]

theorem parseFields_append (l₁ l₂ : List (String × Value)) (pc : ConfigDraft) :
    parseFields pc (l₁ ++ l₂) =
      match parseFields pc l₁ with
      | .error e => .error e
      | .ok pc₂ => parseFields pc₂ l₂ := by
  induction l₁ generalizing pc with
  | nil => simp [parseFields]
  | cons kv rest ih =>
    simp only [List.cons_append, parseFields]
    cases h : parseField pc kv with
    | error e => simp
    | ok pc₂ => simpa using ih pc₂

theorem finish_ok {pc : ConfigDraft} {cfg : Config} (h : finish pc = .ok cfg) :
    cfg = build pc := by
  unfold finish at h
  split at h
  · exact Except.noConfusion h
  · exact (Except.ok.inj h).symm

theorem parseConfig_ok {doc : List (String × Value)} {cfg : Config}
    (h : parseConfig doc = .ok cfg) :
    ∃ pc, parseFields ConfigDraft.empty doc = .ok pc ∧ cfg = build pc := by
  unfold parseConfig at h
  split at h
  · exact Except.noConfusion h
  · next pc heq => exact ⟨pc, heq, finish_ok h⟩

set_option maxHeartbeats 2000000 in
theorem parseField_ok_proj {pc pc₂ : ConfigDraft} {k : String} {v : Value}
    (h : parseField pc (k, v) = .ok pc₂) :
    (k ≠ "query_debounce_duration_ms" →
      pc₂.query_debounce_duration = pc.query_debounce_duration) ∧
    (k ≠ "resize_debounce_duration_ms" →
      pc₂.resize_debounce_duration = pc.resize_debounce_duration) ∧
    (k ≠ "spin_duration_ms" → pc₂.spin_duration = pc.spin_duration) ∧
    (k ≠ "active_item_style" → pc₂.active_item_style = pc.active_item_style) ∧
    (k = "active_item_style" → pc.active_item_style = none ∧
      ∀ r, v = Value.styleRec r → pc₂.active_item_style = some (decodeStyle r)) := by
  unfold parseField at h
  split at h
  · exact Except.noConfusion h
  · next hh hfind =>
    have hmem : hh ∈ fieldHandlers := List.mem_of_find?_eq_some hfind
    have hk : hh.1 = k := by
      have hp := List.find?_some hfind
      simpa using hp
    subst hk
    simp only [fieldHandlers, List.mem_cons, List.not_mem_nil, or_false] at hmem
    rcases hmem with rfl|rfl|rfl|rfl|rfl|rfl|rfl|rfl|rfl|rfl|rfl|rfl|rfl|rfl|rfl|
      rfl|rfl|rfl|rfl|rfl|rfl|rfl|rfl|rfl|rfl|rfl|rfl|rfl|rfl|rfl|rfl|rfl|rfl|
      rfl|rfl|rfl|rfl|rfl <;>
    · dsimp only at h
      obtain ⟨hg, a, hd, rfl⟩ := fieldStep_ok h
      refine ⟨fun hk1 => ?_, fun hk2 => ?_, fun hk3 => ?_, fun hk4 => ?_,
        fun hk5 => ?_⟩ <;>
      first
        | rfl
        | exact absurd rfl hk1
        | exact absurd rfl hk2
        | exact absurd rfl hk3
        | exact absurd rfl hk4
        | exact absurd hk5 (by decide)
        | exact ⟨hg, fun r hr => by
            subst hr
            simp only [decodeStyleVal, Option.some.injEq] at hd
            subst hd
            rfl⟩

theorem parseFields_preserve {α : Type} (f : ConfigDraft → Option α) (name : String)
    (hstep : ∀ pc k v pc₂, parseField pc (k, v) = .ok pc₂ → k ≠ name → f pc₂ = f pc) :
    ∀ (doc : List (String × Value)) (st st' : ConfigDraft),
      parseFields st doc = .ok st' → ¬ name ∈ doc.map Prod.fst → f st' = f st := by
  intro doc
  induction doc with
  | nil =>
    intro st st' h _
    simp only [parseFields, Except.ok.injEq] at h
    rw [h]
  | cons kv rest ih =>
    intro st st' h hmem
    obtain ⟨k, v⟩ := kv
    simp only [List.map_cons, List.mem_cons, not_or] at hmem
    obtain ⟨hne, hrest⟩ := hmem
    cases hp : parseField st (k, v) with
    | error e =>
      simp only [parseFields, hp] at h
      exact Except.noConfusion h
    | ok st₂ =>
      simp only [parseFields, hp] at h
      rw [ih st₂ st' h hrest, hstep st k v st₂ hp (fun hkn => hne hkn.symm)]

theorem parseField_preserve_some_active {pc pc₂ : ConfigDraft} {k : String}
    {v : Value} {x : ContentStyle}
    (hp : parseField pc (k, v) = .ok pc₂)
    (hx : pc.active_item_style = some x) :
    pc₂.active_item_style = some x := by
  by_cases hk : k = "active_item_style"
  · have hnone := ((parseField_ok_proj hp).2.2.2.2 hk).1
    rw [hnone] at hx
    exact Option.noConfusion hx
  · exact ((parseField_ok_proj hp).2.2.2.1 hk).trans hx

theorem parseFields_preserve_some_active :
    ∀ (doc : List (String × Value)) (st st' : ConfigDraft) (x : ContentStyle),
      parseFields st doc = .ok st' → st.active_item_style = some x →
      st'.active_item_style = some x := by
  intro doc
  induction doc with
  | nil =>
    intro st st' x h hx
    simp only [parseFields, Except.ok.injEq] at h
    rw [← h]
    exact hx
  | cons kv rest ih =>
    intro st st' x h hx
    obtain ⟨k, v⟩ := kv
    cases hp : parseField st (k, v) with
    | error e =>
      simp only [parseFields, hp] at h
      exact Except.noConfusion h
    | ok st₂ =>
      simp only [parseFields, hp] at h
      exact ih st₂ st' x h (parseField_preserve_some_active hp hx)

theorem parseFields_tracks_active :
    ∀ (doc : List (String × Value)) (st st' : ConfigDraft) (r : ContentStyleDef),
      parseFields st doc = .ok st' →
      ("active_item_style", Value.styleRec r) ∈ doc →
      st'.active_item_style = some (decodeStyle r) := by
  intro doc
  induction doc with
  | nil =>
    intro st st' r _ hm
    exact absurd hm (List.not_mem_nil _)
  | cons kv rest ih =>
    intro st st' r h hm
    cases hp : parseField st kv with
    | error e =>
      simp only [parseFields, hp] at h
      exact Except.noConfusion h
    | ok st₂ =>
      simp only [parseFields, hp] at h
      rcases List.mem_cons.mp hm with heq | htail
      · subst heq
        have hset := ((parseField_ok_proj hp).2.2.2.2 rfl).2 r rfl
        exact parseFields_preserve_some_active rest st₂ st' _ h hset
      · exact ih st₂ st' r h htail

theorem parseFields_no_ok_of_bad {e : String × Value}
    (hbad : ∀ pc pc₂ : ConfigDraft, parseField pc e ≠ .ok pc₂) :
    ∀ (doc : List (String × Value)) (st st' : ConfigDraft),
      e ∈ doc → parseFields st doc ≠ .ok st' := by
  intro doc
  induction doc with
  | nil =>
    intro st st' hm
    exact absurd hm (List.not_mem_nil _)
  | cons kv rest ih =>
    intro st st' hm h
    cases hp : parseField st kv with
    | error e' =>
      simp only [parseFields, hp] at h
      exact Except.noConfusion h
    | ok st₂ =>
      rcases List.mem_cons.mp hm with heq | htail
      · subst heq
        exact hbad st st₂ hp
      · simp only [parseFields, hp] at h
        exact ih st₂ st' htail h

theorem parseField_duration_neg {pc pc₂ : ConfigDraft} {n : Int} (hn : n < 0)
    (f : String)
    (hf : f = "query_debounce_duration_ms" ∨ f = "resize_debounce_duration_ms" ∨
      f = "spin_duration_ms") :
    parseField pc (f, Value.int n) ≠ .ok pc₂ := by
  intro h
  have hdec : decodeDurationVal (Value.int n) = none := by
    simp only [decodeDurationVal]
    rw [if_neg (by omega)]
  rcases hf with rfl | rfl | rfl
  · have hred : parseField pc ("query_debounce_duration_ms", Value.int n) =
        fieldStep (fun pc => pc.query_debounce_duration)
          (fun pc a => { pc with query_debounce_duration := some a })
          decodeDurationVal "query_debounce_duration_ms" pc (Value.int n) := rfl
    rw [hred] at h
    obtain ⟨-, a, hd, -⟩ := fieldStep_ok h
    rw [hdec] at hd
    exact Option.noConfusion hd
  · have hred : parseField pc ("resize_debounce_duration_ms", Value.int n) =
        fieldStep (fun pc => pc.resize_debounce_duration)
          (fun pc a => { pc with resize_debounce_duration := some a })
          decodeDurationVal "resize_debounce_duration_ms" pc (Value.int n) := rfl
    rw [hred] at h
    obtain ⟨-, a, hd, -⟩ := fieldStep_ok h
    rw [hdec] at hd
    exact Option.noConfusion hd
  · have hred : parseField pc ("spin_duration_ms", Value.int n) =
        fieldStep (fun pc => pc.spin_duration)
          (fun pc a => { pc with spin_duration := some a })
          decodeDurationVal "spin_duration_ms" pc (Value.int n) := rfl
    rw [hred] at h
    obtain ⟨-, a, hd, -⟩ := fieldStep_ok h
    rw [hdec] at hd
    exact Option.noConfusion hd

/-- C1 evaluation at the failing input: parsing the empty document does
not produce the built-in default configuration — it fails outright with a
missing-field error on the first required field, because only the three
duration fields carry a serde default. -/
theorem parse_empty_doc_missing_field :
    parseConfig [] = .error (.missingField "search_result_chunk_size") := by
  decide

/-- C3 counterexample: a document whose recognized first field carries an
undecodable value and which also contains the unrecognized field `foo`
fails with the value error of the recognized field, not with an
UnknownField error naming `foo`. -/
theorem unknown_field_error_shadowed_counterexample :
    parseConfig [("search_result_chunk_size", Value.str "x"), ("foo", Value.int 1)] =
      .error (.invalidValue "search_result_chunk_size") ∧
    (knownFieldNames.contains "foo") = false ∧
    List.map Prod.fst
        [("search_result_chunk_size", Value.str "x"), ("foo", Value.int 1)] =
      ["search_result_chunk_size", "foo"] := by
  refine ⟨by decide, by decide, by decide⟩

/-- C3 amended: a document containing an unrecognized top-level field
never produces a Configuration; and when the entries before the first
unrecognized field all process successfully, the parse fails with an
UnknownField error naming that field. -/
theorem unknown_field_parse_fails (doc : List (String × Value)) (f : String)
    (v : Value) (hf : ¬ f ∈ knownFieldNames) :
    ((f, v) ∈ doc → ∀ cfg, parseConfig doc ≠ .ok cfg) ∧
    (∀ pre rest, doc = pre ++ (f, v) :: rest →
      (∃ st, parseFields ConfigDraft.empty pre = .ok st) →
      parseConfig doc = .error (.unknownField f)) := by
  constructor
  · intro hm cfg hok
    obtain ⟨pc, hfold, -⟩ := parseConfig_ok hok
    exact parseFields_no_ok_of_bad
      (fun pc pc₂ h => by
        rw [parseField_unknown hf] at h
        exact Except.noConfusion h)
      doc ConfigDraft.empty pc hm hfold
  · rintro pre rest rfl ⟨st, hpre⟩
    unfold parseConfig
    simp only [parseFields_append, hpre]
    simp only [parseFields, parseField_unknown hf]

/-- C3 witness: the document with unrecognized `foo` followed by a valid
field fails with UnknownField naming `foo`. -/
theorem unknown_field_parse_fails_witness :
    parseConfig [("foo", Value.int 1), ("search_result_chunk_size", Value.int 10)] =
      .error (.unknownField "foo") :=
  (unknown_field_parse_fails
      [("foo", Value.int 1), ("search_result_chunk_size", Value.int 10)]
      "foo" (Value.int 1) (by decide)).2 [] _ rfl ⟨ConfigDraft.empty, rfl⟩

/-- C6: each duration field decodes a non-negative integer `n` into an
interval of `n` milliseconds, and a negative value anywhere in one of the
three duration fields fails the whole parse. -/
theorem duration_decode (n : Int) :
    (0 ≤ n → decodeDurationVal (Value.int n) = some (Duration.fromMillis n.toNat)) ∧
    (∀ pc : ConfigDraft, pc.query_debounce_duration = none → 0 ≤ n →
      parseField pc ("query_debounce_duration_ms", Value.int n) =
        .ok { pc with query_debounce_duration := some (Duration.fromMillis n.toNat) }) ∧
    (∀ pc : ConfigDraft, pc.resize_debounce_duration = none → 0 ≤ n →
      parseField pc ("resize_debounce_duration_ms", Value.int n) =
        .ok { pc with resize_debounce_duration := some (Duration.fromMillis n.toNat) }) ∧
    (∀ pc : ConfigDraft, pc.spin_duration = none → 0 ≤ n →
      parseField pc ("spin_duration_ms", Value.int n) =
        .ok { pc with spin_duration := some (Duration.fromMillis n.toNat) }) ∧
    (n < 0 → ∀ (doc : List (String × Value)) (f : String),
      (f = "query_debounce_duration_ms" ∨ f = "resize_debounce_duration_ms" ∨
        f = "spin_duration_ms") →
      (f, Value.int n) ∈ doc → ∀ cfg, parseConfig doc ≠ .ok cfg) := by
  refine ⟨fun hn => ?_, fun pc hnone hn => ?_, fun pc hnone hn => ?_,
    fun pc hnone hn => ?_, fun hn doc f hf hmem cfg hok => ?_⟩
  · simp only [decodeDurationVal]
    rw [if_pos hn]
  · have hred : parseField pc ("query_debounce_duration_ms", Value.int n) =
        fieldStep (fun pc => pc.query_debounce_duration)
          (fun pc a => { pc with query_debounce_duration := some a })
          decodeDurationVal "query_debounce_duration_ms" pc (Value.int n) := rfl
    rw [hred]
    simp [fieldStep, decodeDurationVal, hnone, hn]
  · have hred : parseField pc ("resize_debounce_duration_ms", Value.int n) =
        fieldStep (fun pc => pc.resize_debounce_duration)
          (fun pc a => { pc with resize_debounce_duration := some a })
          decodeDurationVal "resize_debounce_duration_ms" pc (Value.int n) := rfl
    rw [hred]
    simp [fieldStep, decodeDurationVal, hnone, hn]
  · have hred : parseField pc ("spin_duration_ms", Value.int n) =
        fieldStep (fun pc => pc.spin_duration)
          (fun pc a => { pc with spin_duration := some a })
          decodeDurationVal "spin_duration_ms" pc (Value.int n) := rfl
    rw [hred]
    simp [fieldStep, decodeDurationVal, hnone, hn]
  · obtain ⟨pc, hfold, -⟩ := parseConfig_ok hok
    exact parseFields_no_ok_of_bad
      (fun pc pc₂ => parseField_duration_neg hn f hf)
      doc ConfigDraft.empty pc hmem hfold

/-- C6 witness: 1000 decodes to a 1000-millisecond interval and fills the
query-debounce slot; a negative duration makes the parse fail with a
value error on that field. -/
theorem duration_decode_witness :
    decodeDurationVal (Value.int 1000) = some (Duration.fromMillis 1000) ∧
    parseField ConfigDraft.empty ("query_debounce_duration_ms", Value.int 1000) =
      .ok { ConfigDraft.empty with
              query_debounce_duration := some (Duration.fromMillis 1000) } ∧
    parseConfig [("query_debounce_duration_ms", Value.int (-1))] =
      .error (.invalidValue "query_debounce_duration_ms") :=
  ⟨(duration_decode 1000).1 (by decide),
   (duration_decode 1000).2.1 ConfigDraft.empty rfl (by decide),
   by decide⟩

/-- C9: the chord record with key `Char '$'` and the control modifier
decodes to the KeyEvent built directly by `KeyEvent::new` from `'$'` and
control, both as a bare record and through the chord field codec. -/
theorem keychord_decode :
    decodeKeyChord ⟨.char '$', KeyModifiers.controlMod⟩ =
      KeyEvent.new (.char '$') KeyModifiers.controlMod ∧
    decodeChordVal (Value.keyRec ⟨.char '$', KeyModifiers.controlMod⟩) =
      some (KeyEvent.new (.char '$') KeyModifiers.controlMod) :=
  ⟨rfl, rfl⟩

/-- C7: a style record that sets only the foreground decodes to the Style
with that foreground and absent background/underline and empty attribute
set; moreover the decoded value of the `active_item_style` field of any
successfully parsed document is exactly the decode of that field's own
record, independent of everything else in the document. -/
theorem foreground_only_style (c : Color) :
    decodeStyle ⟨some c, none, none, none⟩ =
      { foreground_color := some c, background_color := none,
        underline_color := none, attributes := (∅ : Attributes) } ∧
    ∀ (doc : List (String × Value)) (cfg : Config) (r : ContentStyleDef),
      parseConfig doc = .ok cfg →
      ("active_item_style", Value.styleRec r) ∈ doc →
      cfg.active_item_style = decodeStyle r := by
  refine ⟨rfl, ?_⟩
  intro doc cfg r h hm
  obtain ⟨pc, hfold, rfl⟩ := parseConfig_ok h
  have htrack := parseFields_tracks_active doc ConfigDraft.empty pc r hfold hm
  simp [build, styleD, htrack]

/-- C7 witness: parsing the all-required document, whose
`active_item_style` record sets only `foreground = green`, yields green
foreground and empty everything-else in that slot. -/
theorem foreground_only_style_witness :
    parseConfig docAllRequired = .ok (build draftAllRequired) ∧
    (build draftAllRequired).active_item_style =
      { foreground_color := some Color.green, background_color := none,
        underline_color := none, attributes := (∅ : Attributes) } := by
  have h := (foreground_only_style Color.green).2 docAllRequired
    (build draftAllRequired) ⟨some Color.green, none, none, none⟩
    (by decide) (by decide)
  exact ⟨by decide, h.trans (foreground_only_style Color.green).1⟩

/-- C10: in any successfully parsed document, a duration field absent
from the document comes out as the zero interval (the `Duration` default
selected by the field-level serde default), not as the built-in
configuration default of 600, 200, or 300 milliseconds. -/
theorem absent_duration_defaults_zero (doc : List (String × Value)) (cfg : Config)
    (h : parseConfig doc = .ok cfg) :
    (¬ "query_debounce_duration_ms" ∈ doc.map Prod.fst →
      cfg.query_debounce_duration = Duration.zero) ∧
    (¬ "resize_debounce_duration_ms" ∈ doc.map Prod.fst →
      cfg.resize_debounce_duration = Duration.zero) ∧
    (¬ "spin_duration_ms" ∈ doc.map Prod.fst →
      cfg.spin_duration = Duration.zero) ∧
    defaultConfig.query_debounce_duration = Duration.fromMillis 600 ∧
    defaultConfig.resize_debounce_duration = Duration.fromMillis 200 ∧
    defaultConfig.spin_duration = Duration.fromMillis 300 ∧
    Duration.zero ≠ Duration.fromMillis 600 ∧
    Duration.zero ≠ Duration.fromMillis 200 ∧
    Duration.zero ≠ Duration.fromMillis 300 := by
  obtain ⟨pc, hfold, rfl⟩ := parseConfig_ok h
  refine ⟨fun hq => ?_, fun hr => ?_, fun hs => ?_, rfl, rfl, rfl,
    by decide, by decide, by decide⟩
  · have hnone : pc.query_debounce_duration = none :=
      parseFields_preserve (fun pc => pc.query_debounce_duration) _
        (fun pc k v pc₂ hp hk => (parseField_ok_proj hp).1 hk)
        doc ConfigDraft.empty pc hfold hq
    simp [build, hnone, Option.getD]
  · have hnone : pc.resize_debounce_duration = none :=
      parseFields_preserve (fun pc => pc.resize_debounce_duration) _
        (fun pc k v pc₂ hp hk => (parseField_ok_proj hp).2.1 hk)
        doc ConfigDraft.empty pc hfold hr
    simp [build, hnone, Option.getD]
  · have hnone : pc.spin_duration = none :=
      parseFields_preserve (fun pc => pc.spin_duration) _
        (fun pc k v pc₂ hp hk => (parseField_ok_proj hp).2.2.1 hk)
        doc ConfigDraft.empty pc hfold hs
    simp [build, hnone, Option.getD]

/-- C10 witness: the all-required document (durations absent) parses
successfully and all three duration fields come out zero. -/
theorem absent_duration_defaults_zero_witness :
    parseConfig docAllRequired = .ok (build draftAllRequired) ∧
    (build draftAllRequired).query_debounce_duration = Duration.zero ∧
    (build draftAllRequired).resize_debounce_duration = Duration.zero ∧
    (build draftAllRequired).spin_duration = Duration.zero := by
  have h := absent_duration_defaults_zero docAllRequired (build draftAllRequired)
    (by decide)
  exact ⟨by decide, h.1 (by decide), h.2.1 (by decide), h.2.2.1 (by decide)⟩

end Jnv
